import Mathlib

/-!
Shallow embedding of the tourism sentiment dashboard (src/app.py) and
verification of its specification claims.

The program loads a CSV of reviews into a pandas DataFrame `df`, filters it by
user-selected sentiment and area-type sets, and derives views: summary counts,
category counts via value_counts, a top-10 rural-positive destination ranking,
a per-district average sentiment score (with an in-place SentimentScore column
assignment on the main table), per-sentiment word-cloud corpora, and a
geo-record subset of the filtered table.

Rows are modelled with the seven loaded columns; latitude and longitude are
optional (missing geocode), matching the dropna on those columns. The pandas
NaN produced by mapping an unknown sentiment through the score dictionary is
modelled as none, and a group mean over no valid scores is the bottom element
of WithBot Rat, mirroring the NaN mean pandas produces for such a group.
-/

namespace TourismApp

/-- One row of the loaded table, after the loader's column cleaning
(app.py lines 8 to 16). Latitude and longitude may be missing. -/
structure Row where
  review : String
  sentiment : String
  areaType : String
  district : String
  destination : String
  latitude : Option ℚ
  longitude : Option ℚ
deriving DecidableEq

/-- The main in-memory table: the loaded rows plus the SentimentScore column
that line 68 of app.py attaches in place (absent right after load). -/
structure DF where
  rows : List Row
  sentimentScoreCol : Option (List (Option ℕ))

/-- app.py line 25: filtered_df keeps rows whose Sentiment is in the selected
sentiment list and whose Area Type is in the selected area list. -/
def filtered_df (df : List Row) (selS selA : List String) : List Row :=
  df.filter (fun r => decide (r.sentiment ∈ selS) && decide (r.areaType ∈ selA))

/-- Descending-by-count order used by pandas value_counts. -/
def countRel (x y : String × ℕ) : Prop := y.2 ≤ x.2

instance : DecidableRel countRel := fun x y => inferInstanceAs (Decidable (y.2 ≤ x.2))

instance : IsTotal (String × ℕ) countRel := ⟨fun a b => le_total b.2 a.2⟩

instance : IsTrans (String × ℕ) countRel := ⟨fun _ _ _ h1 h2 => le_trans h2 h1⟩

/-- pandas Series.value_counts: one (value, count) pair per distinct value,
sorted descending by count. -/
def value_counts (vals : List String) : List (String × ℕ) :=
  List.insertionSort countRel (vals.dedup.map (fun v => (v, vals.count v)))

/-- app.py line 40: area_counts = df['Area Type'].value_counts(). -/
def area_counts (df : List Row) : List (String × ℕ) :=
  value_counts (df.map Row.areaType)

/-- app.py line 48: sentiment_counts = df['Sentiment'].value_counts(). -/
def sentiment_counts (df : List Row) : List (String × ℕ) :=
  value_counts (df.map Row.sentiment)

/-- app.py line 57: rows with Area Type Rural and Sentiment Positive. -/
def top_rural (df : List Row) : List Row :=
  df.filter (fun r => r.areaType == "Rural" && r.sentiment == "Positive")

/-- app.py line 58: destination value_counts of the rural-positive rows,
truncated to the first 10 entries. -/
def top_rural_counts (df : List Row) : List (String × ℕ) :=
  (value_counts ((top_rural df).map Row.destination)).take 10

/-- app.py line 67: the fixed sentiment-to-score dictionary. -/
def sentiment_map : List (String × ℕ) :=
  [("Negative", 0), ("Neutral", 1), ("Positive", 2)]

/-- app.py line 68: the SentimentScore column, one entry per row; mapping a
sentiment outside the dictionary yields none (pandas NaN). -/
def scoresOf (rows : List Row) : List (Option ℕ) :=
  rows.map (fun r => sentiment_map.lookup r.sentiment)

/-- pandas mean with skipna: missing scores are dropped; a group with no
valid score gets bottom (pandas NaN), otherwise the arithmetic mean. -/
def meanScores (scores : List (Option ℕ)) : WithBot ℚ :=
  if ((scores.filterMap id).length) = 0 then ⊥
  else (((((scores.filterMap id).map (fun n : ℕ => (n : ℚ))).sum
    / ((scores.filterMap id).length : ℚ) : ℚ)) : WithBot ℚ)

/-- app.py line 69: groupby District of the SentimentScore column, mean per
district. Every district occurring in the table contributes a group. -/
def avg_sentiment (df : List Row) : List (String × WithBot ℚ) :=
  (df.map Row.district).dedup.map
    (fun d => (d, meanScores (scoresOf (df.filter (fun r => r.district == d)))))

/-- app.py lines 70 to 71: review_counts = df['District'].value_counts(). -/
def review_counts (df : List Row) : List (String × ℕ) :=
  value_counts (df.map Row.district)

/-- app.py line 72: inner merge of the average table with the count table on
the District key, keeping the left table's order. -/
def avg_merged (df : List Row) : List (String × WithBot ℚ × ℕ) :=
  (avg_sentiment df).filterMap
    (fun p => ((review_counts df).lookup p.1).map (fun c => (p.1, p.2, c)))

/-- Descending-by-average-score order used at app.py line 73; a missing
average (pandas NaN) is bottom and therefore sorts last. -/
def scoreRel (x y : String × WithBot ℚ × ℕ) : Prop := y.2.1 ≤ x.2.1

instance : DecidableRel scoreRel := fun x y => inferInstanceAs (Decidable (y.2.1 ≤ x.2.1))

instance : IsTotal (String × WithBot ℚ × ℕ) scoreRel := ⟨fun a b => le_total b.2.1 a.2.1⟩

instance : IsTrans (String × WithBot ℚ × ℕ) scoreRel := ⟨fun _ _ _ h1 h2 => le_trans h2 h1⟩

/-- app.py line 73: sort the merged table descending by SentimentScore and
keep the first 10 rows. -/
def top_sentiment_districts (df : List Row) : List (String × WithBot ℚ × ℕ) :=
  (List.insertionSort scoreRel (avg_merged df)).take 10

/-- Re-application of the count ranking step (sort descending, keep 10). -/
def rankByCount (l : List (String × ℕ)) : List (String × ℕ) :=
  (List.insertionSort countRel l).take 10

/-- Re-application of the score ranking step (sort descending, keep 10). -/
def rankByScore (l : List (String × WithBot ℚ × ℕ)) : List (String × WithBot ℚ × ℕ) :=
  (List.insertionSort scoreRel l).take 10

/-- app.py line 83: the corpus handed to the word-cloud renderer, the Review
field of every row of the target sentiment joined with a single space. -/
def generate_wordcloud_text (df : List Row) (sentiment : String) : String :=
  String.intercalate " " ((df.filter (fun r => r.sentiment == sentiment)).map Row.review)

/-- app.py line 100: map_df = filtered_df.dropna(subset=['Latitude', 'Longitude']). -/
def map_df (fdf : List Row) : List Row :=
  fdf.filter (fun r => r.latitude.isSome && r.longitude.isSome)

/-- Outcome of the map section: either a plotted subset or the distinct
no-geo-data warning state. -/
inductive MapView where
  | plot (rows : List Row) : MapView
  | noGeoData : MapView

/-- app.py lines 101 to 117: plot map_df when it is nonempty, otherwise show
the no-geolocation warning. -/
def renderMap (fdf : List Row) : MapView :=
  let m := map_df fdf
  if m.isEmpty then MapView.noGeoData else MapView.plot m

/-- Everything the script hands to the presentation layer in one run. -/
structure Outputs where
  totalReviews : ℕ
  ruralReviews : ℕ
  urbanReviews : ℕ
  areaCounts : List (String × ℕ)
  sentimentCounts : List (String × ℕ)
  topRuralCounts : List (String × ℕ)
  topSentimentDistricts : List (String × WithBot ℚ × ℕ)
  corpusPositive : String
  corpusNeutral : String
  corpusNegative : String
  mapView : MapView

/-- The whole script body after load, in source order: filtered_df is taken at
line 25, lines 32 to 59 read the full table, line 68 writes the SentimentScore
column into the main table in place, lines 69 to 95 read the updated table,
and lines 100 to 117 render the map from filtered_df. Returns the final state
of the main table together with all presented outputs. -/
def runScript (df0 : DF) (selS selA : List String) : DF × Outputs :=
  let fdf := filtered_df df0.rows selS selA
  let df1 : DF := { df0 with sentimentScoreCol := some (scoresOf df0.rows) }
  (df1,
   { totalReviews := df0.rows.length
     ruralReviews := (df0.rows.filter (fun r => r.areaType == "Rural")).length
     urbanReviews := (df0.rows.filter (fun r => r.areaType == "Urban")).length
     areaCounts := area_counts df0.rows
     sentimentCounts := sentiment_counts df0.rows
     topRuralCounts := top_rural_counts df0.rows
     topSentimentDistricts := top_sentiment_districts df1.rows
     corpusPositive := generate_wordcloud_text df1.rows "Positive"
     corpusNeutral := generate_wordcloud_text df1.rows "Neutral"
     corpusNegative := generate_wordcloud_text df1.rows "Negative"
     mapView := renderMap fdf })

/-- Concrete row with a valid sentiment and full geocode. -/
def goodRow : Row :=
  ⟨"Beautiful waterfall", "Positive", "Rural", "Galle", "Ella", some 6, some 80⟩

/-- Second concrete row with a valid sentiment. -/
def goodRow2 : Row :=
  ⟨"Lovely beach", "Positive", "Urban", "Colombo", "Mirissa", some 5, some 79⟩

/-- Concrete row whose sentiment is outside the score dictionary. -/
def badRow : Row :=
  ⟨"So so", "Mixed", "Rural", "Galle", "Ella", none, none⟩

/-- Concrete row with a missing latitude. -/
def noGeoRow : Row :=
  ⟨"Nice", "Positive", "Rural", "Galle", "Ella", none, some 80⟩

/-! ## Helper lemmas -/

/-- A stable insertion sort leaves an already sorted list unchanged. -/
theorem insertionSort_of_sorted {α : Type} {r : α → α → Prop} [DecidableRel r] :
    ∀ {l : List α}, l.Sorted r → List.insertionSort r l = l := by
  intro l
  induction l with
  | nil => intro _; rfl
  | cons a t ih =>
    intro hl
    rw [List.insertionSort, ih (List.sorted_cons.mp hl).2]
    cases t with
    | nil => rfl
    | cons b t2 =>
      rw [List.orderedInsert, if_pos ((List.sorted_cons.mp hl).1 b (List.mem_cons_self b t2))]

/-- A truncated sort is sorted. -/
theorem sortTake_sorted {α : Type} (r : α → α → Prop) [DecidableRel r] [IsTotal α r]
    [IsTrans α r] (l : List α) (n : ℕ) : ((List.insertionSort r l).take n).Sorted r :=
  List.Pairwise.sublist (List.take_sublist n _) (List.sorted_insertionSort r l)

/-- Sorting and truncating a sorted truncation changes nothing. -/
theorem sortTake_idem {α : Type} (r : α → α → Prop) [DecidableRel r] [IsTotal α r]
    [IsTrans α r] (l : List α) (n : ℕ) :
    (List.insertionSort r ((List.insertionSort r l).take n)).take n
      = (List.insertionSort r l).take n := by
  rw [insertionSort_of_sorted (sortTake_sorted r l n), List.take_take, min_self]

/-- Association-list lookup succeeds exactly on the stored keys. -/
theorem lookup_isSome_iff {α β : Type} [BEq α] [LawfulBEq α] :
    ∀ (l : List (α × β)) (a : α), (l.lookup a).isSome ↔ a ∈ l.map Prod.fst := by
  intro l a
  induction l with
  | nil => simp [List.lookup]
  | cons p t ih =>
    obtain ⟨k, v⟩ := p
    by_cases h : a = k
    · subst h
      simp [List.lookup]
    · have hk : (a == k) = false := beq_eq_false_iff_ne.mpr h
      simp [List.lookup, hk, ih, h]

/-- Every score stored in the sentiment dictionary is 0, 1 or 2. -/
theorem sentiment_map_lookup_cases {s : String} {n : ℕ}
    (h : sentiment_map.lookup s = some n) : n = 0 ∨ n = 1 ∨ n = 2 := by
  simp only [sentiment_map, List.lookup] at h
  split at h
  · exact Or.inl (Option.some.inj h).symm
  · split at h
    · exact Or.inr (Or.inl (Option.some.inj h).symm)
    · split at h
      · exact Or.inr (Or.inr (Option.some.inj h).symm)
      · exact absurd h (by simp [List.lookup])

/-- A sentiment outside the three dictionary keys has no score. -/
theorem sentiment_map_lookup_eq_none {s : String}
    (h1 : s ≠ "Negative") (h2 : s ≠ "Neutral") (h3 : s ≠ "Positive") :
    sentiment_map.lookup s = none := by
  simp [sentiment_map, List.lookup, beq_eq_false_iff_ne.mpr h1,
    beq_eq_false_iff_ne.mpr h2, beq_eq_false_iff_ne.mpr h3]

/-- A nonempty mean of scores that are all at most 2 is a rational in [0, 2]. -/
theorem meanScores_bounds (scores : List (Option ℕ))
    (hb : ∀ x ∈ scores.filterMap id, x ≤ 2) (hne : meanScores scores ≠ ⊥) :
    ∃ q : ℚ, meanScores scores = (q : WithBot ℚ) ∧ 0 ≤ q ∧ q ≤ 2 := by
  by_cases h0 : (scores.filterMap id).length = 0
  · exact absurd (by simp [meanScores, h0]) hne
  · have hlen : 0 < ((scores.filterMap id).length : ℚ) := by
      exact_mod_cast Nat.pos_of_ne_zero h0
    refine ⟨((scores.filterMap id).map (fun n : ℕ => (n : ℚ))).sum
        / ((scores.filterMap id).length : ℚ), by simp [meanScores, h0], ?_, ?_⟩
    · apply div_nonneg _ (le_of_lt hlen)
      apply List.sum_nonneg
      intro x hx
      obtain ⟨n, _, rfl⟩ := List.mem_map.mp hx
      exact Nat.cast_nonneg n
    · rw [div_le_iff₀ hlen]
      have h2 : ((scores.filterMap id).map (fun n : ℕ => (n : ℚ))).sum
          ≤ ((scores.filterMap id).map (fun n : ℕ => (n : ℚ))).length • (2 : ℚ) := by
        apply List.sum_le_card_nsmul
        intro x hx
        obtain ⟨n, hn, rfl⟩ := List.mem_map.mp hx
        exact_mod_cast hb n hn
      rw [List.length_map, nsmul_eq_mul, mul_comm] at h2
      exact h2

/-- The keys of a value_counts table are a permutation of the distinct values. -/
theorem value_counts_keys_perm (vals : List String) :
    List.Perm ((value_counts vals).map Prod.fst) vals.dedup := by
  unfold value_counts
  have h := (List.perm_insertionSort countRel
    (vals.dedup.map (fun v => (v, vals.count v)))).map Prod.fst
  rw [List.map_map] at h
  rw [show (Prod.fst ∘ fun v : String => (v, vals.count v)) = id from rfl, List.map_id] at h
  exact h

/-- The keys of a value_counts table are pairwise distinct. -/
theorem value_counts_keys_nodup (vals : List String) :
    ((value_counts vals).map Prod.fst).Nodup :=
  ((value_counts_keys_perm vals).nodup_iff).mpr (List.nodup_dedup vals)

/-- The counts of a value_counts table sum to the number of values. -/
theorem value_counts_sum (vals : List String) :
    ((value_counts vals).map Prod.snd).sum = vals.length := by
  unfold value_counts
  have h := (List.perm_insertionSort countRel
    (vals.dedup.map (fun v => (v, vals.count v)))).map Prod.snd
  rw [h.sum_eq, List.map_map]
  simpa using List.sum_map_count_dedup_eq_length vals

/-! ## Claims -/

/-- C1: for every table and every pair of allowed-value lists, the filter
engine returns exactly the subsequence of rows whose sentiment is in the
allowed sentiment list and whose area type is in the allowed area list: each
returned row satisfies both memberships, the result is a sublist of the input
(hence of size at most the input's size), and every sublist of the input all
of whose rows satisfy both predicates is a sublist of the result. -/
theorem C1_filter_engine (df : List Row) (selS selA : List String) :
    (∀ r ∈ filtered_df df selS selA, r.sentiment ∈ selS ∧ r.areaType ∈ selA) ∧
    List.Sublist (filtered_df df selS selA) df ∧
    (filtered_df df selS selA).length ≤ df.length ∧
    (∀ l, List.Sublist l df → (∀ r ∈ l, r.sentiment ∈ selS ∧ r.areaType ∈ selA) →
      List.Sublist l (filtered_df df selS selA)) := by
  refine ⟨?_, List.filter_sublist _, List.length_filter_le _ _, ?_⟩
  · intro r hr
    have h := (List.mem_filter.mp hr).2
    simpa using h
  · intro l hsub hall
    have hself : l.filter
        (fun r => decide (r.sentiment ∈ selS) && decide (r.areaType ∈ selA)) = l := by
      rw [List.filter_eq_self]
      intro a ha
      simpa using hall a ha
    have h2 := hsub.filter
      (fun r => decide (r.sentiment ∈ selS) && decide (r.areaType ∈ selA))
    rw [hself] at h2
    exact h2

/-- Witness for C1 at a concrete one-row table and singleton selections. -/
theorem C1_filter_engine_witness :
    goodRow.sentiment ∈ (["Positive"] : List String) ∧
    goodRow.areaType ∈ (["Rural"] : List String) :=
  (C1_filter_engine [goodRow] ["Positive"] ["Rural"]).1 goodRow (by decide)

/-- C6: filtering with an empty allowed sentiment list returns the empty
table, and likewise for an empty allowed area-type list; there is no implicit
select-all fallback for an empty selection. -/
theorem C6_empty_selection (df : List Row) (selS selA : List String) :
    filtered_df df [] selA = [] ∧ filtered_df df selS [] = [] := by
  constructor <;> simp [filtered_df]

/-- C4: each category-count aggregator (Area Type and Sentiment) produces
pairwise distinct grouping keys whose counts sum to the number of rows of the
input table, and the empty table yields the empty output, not an error. -/
theorem C4_category_counts (df : List Row) :
    ((area_counts df).map Prod.fst).Nodup ∧
    ((area_counts df).map Prod.snd).sum = df.length ∧
    ((sentiment_counts df).map Prod.fst).Nodup ∧
    ((sentiment_counts df).map Prod.snd).sum = df.length ∧
    area_counts [] = [] ∧ sentiment_counts [] = [] := by
  refine ⟨value_counts_keys_nodup _, ?_, value_counts_keys_nodup _, ?_, rfl, rfl⟩
  · rw [area_counts, value_counts_sum, List.length_map]
  · rw [sentiment_counts, value_counts_sum, List.length_map]

/-- C5: both top-N aggregators return at most 10 rows, sorted descending by
their measure (count for rural-positive destinations, average score for
districts, a missing average sorting last), and re-applying the ranking step
(sort descending, keep 10) to either output returns it unchanged. -/
theorem C5_topn_rankings (df : List Row) :
    (top_rural_counts df).length ≤ 10 ∧
    (top_rural_counts df).Sorted countRel ∧
    rankByCount (top_rural_counts df) = top_rural_counts df ∧
    (top_sentiment_districts df).length ≤ 10 ∧
    (top_sentiment_districts df).Sorted scoreRel ∧
    rankByScore (top_sentiment_districts df) = top_sentiment_districts df := by
  refine ⟨?_, ?_, ?_, ?_, ?_, ?_⟩
  · rw [top_rural_counts, List.length_take]
    exact min_le_left _ _
  · rw [top_rural_counts, value_counts]
    exact sortTake_sorted countRel _ 10
  · rw [top_rural_counts, value_counts, rankByCount]
    exact sortTake_idem countRel _ 10
  · rw [top_sentiment_districts, List.length_take]
    exact min_le_left _ _
  · rw [top_sentiment_districts]
    exact sortTake_sorted scoreRel _ 10
  · rw [top_sentiment_districts, rankByScore]
    exact sortTake_idem scoreRel _ 10

/-- C7: concrete evaluation of the word-cloud corpus builder. On a table whose
rows are Positive, Mixed and Positive, the Positive corpus is the two matching
Review fields in table row order joined by one space; on a table with no
Neutral row the Neutral corpus is the empty string, which app.py line 84 then
passes to the external word-cloud generator without any emptiness guard. -/
theorem C7_corpus_behavior :
    generate_wordcloud_text [goodRow, badRow, goodRow2] "Positive"
      = goodRow.review ++ " " ++ goodRow2.review ∧
    generate_wordcloud_text [goodRow, goodRow2] "Neutral" = "" :=
  ⟨rfl, rfl⟩

/-- C8: every row kept by the geo-record selector has both latitude and
longitude present, and on an empty geo selection the map section yields the
distinct no-geo-data signal as a normal outcome (otherwise it plots exactly
the selected rows). -/
theorem C8_geo_selector (fdf : List Row) :
    (∀ r ∈ map_df fdf, r.latitude.isSome ∧ r.longitude.isSome) ∧
    (map_df fdf = [] → renderMap fdf = MapView.noGeoData) ∧
    (map_df fdf ≠ [] → renderMap fdf = MapView.plot (map_df fdf)) := by
  refine ⟨?_, ?_, ?_⟩
  · intro r hr
    have h := (List.mem_filter.mp hr).2
    simpa using h
  · intro h
    simp [renderMap, h]
  · intro h
    simp [renderMap, List.isEmpty_iff, h]

/-- Witness for C8 at a one-row table whose row has no latitude. -/
theorem C8_geo_selector_witness : renderMap [noGeoRow] = MapView.noGeoData :=
  (C8_geo_selector [noGeoRow]).2.1 rfl

/-- C9 counterexample: running the script on a loaded table with no
SentimentScore column leaves the main table with that column attached
(app.py line 68 mutates df in place), so the loaded table is not unchanged. -/
theorem C9_counterexample :
    (runScript { rows := [goodRow], sentimentScoreCol := none }
      ["Positive"] ["Rural"]).1.sentimentScoreCol = some [some 2] ∧
    ({ rows := [goodRow], sentimentScoreCol := none } : DF).sentimentScoreCol = none :=
  ⟨by decide, rfl⟩

/-- C9 (amended): after load the rows and the seven loaded columns are never
mutated by any operation of the script; the only in-place change to the main
table is line 68 attaching the derived SentimentScore column, and every other
derived view is a fresh value. -/
theorem C9_rows_never_mutated (df0 : DF) (selS selA : List String) :
    (runScript df0 selS selA).1.rows = df0.rows ∧
    (runScript df0 selS selA).1.sentimentScoreCol = some (scoresOf df0.rows) :=
  ⟨rfl, rfl⟩

/-- C10: for any two filter selections over the same loaded table, every
derived view except the geo map is identical: the three summary scalars, both
category-count tables, both top-10 tables and the three corpora are computed
from the full table and do not depend on the selected sentiment or area-type
lists. -/
theorem C10_selection_independence (df0 : DF) (s1 a1 s2 a2 : List String) :
    (runScript df0 s1 a1).2.totalReviews = (runScript df0 s2 a2).2.totalReviews ∧
    (runScript df0 s1 a1).2.ruralReviews = (runScript df0 s2 a2).2.ruralReviews ∧
    (runScript df0 s1 a1).2.urbanReviews = (runScript df0 s2 a2).2.urbanReviews ∧
    (runScript df0 s1 a1).2.areaCounts = (runScript df0 s2 a2).2.areaCounts ∧
    (runScript df0 s1 a1).2.sentimentCounts = (runScript df0 s2 a2).2.sentimentCounts ∧
    (runScript df0 s1 a1).2.topRuralCounts = (runScript df0 s2 a2).2.topRuralCounts ∧
    (runScript df0 s1 a1).2.topSentimentDistricts
      = (runScript df0 s2 a2).2.topSentimentDistricts ∧
    (runScript df0 s1 a1).2.corpusPositive = (runScript df0 s2 a2).2.corpusPositive ∧
    (runScript df0 s1 a1).2.corpusNeutral = (runScript df0 s2 a2).2.corpusNeutral ∧
    (runScript df0 s1 a1).2.corpusNegative = (runScript df0 s2 a2).2.corpusNegative :=
  ⟨rfl, rfl, rfl, rfl, rfl, rfl, rfl, rfl, rfl, rfl⟩

/-- Membership in the merged average table determines the district key and the
group mean. -/
theorem mem_avg_merged {df : List Row} {d : String} {s : WithBot ℚ} {c : ℕ}
    (h : (d, s, c) ∈ avg_merged df) :
    d ∈ (df.map Row.district).dedup ∧
      s = meanScores (scoresOf (df.filter (fun r => r.district == d))) := by
  obtain ⟨p, hp, hpe⟩ := List.mem_filterMap.mp h
  obtain ⟨dd, hdd, hpe2⟩ := List.mem_map.mp hp
  obtain ⟨c2, _, heq⟩ := Option.map_eq_some'.mp hpe
  subst hpe2
  injection heq with h1 h23
  injection h23 with h2 h3
  subst h1
  exact ⟨hdd, h2.symm⟩

/-- Every valid score of a district group is at most 2. -/
theorem group_scores_le_two (df : List Row) (d : String) :
    ∀ x ∈ (scoresOf (df.filter (fun r => r.district == d))).filterMap id, x ≤ 2 := by
  intro x hx
  obtain ⟨o, ho, hoe⟩ := List.mem_filterMap.mp hx
  simp only [scoresOf] at ho
  obtain ⟨r, _, hre⟩ := List.mem_map.mp ho
  have hsome : sentiment_map.lookup r.sentiment = some x := by rw [hre]; exact hoe
  rcases sentiment_map_lookup_cases hsome with h | h | h <;> omega

/-- C2 (amended): sentiments are mapped through the fixed dictionary
(Negative to 0, Neutral to 1, Positive to 2, anything else to no score), rows
whose sentiment has no score are excluded from the mean, and every defined
average in the grouped output is a rational in [0, 2]; a district whose rows
all have invalid sentiments carries the undefined bottom average instead of a
number. -/
theorem C2_grouped_average (df : List Row) (d : String) (s : WithBot ℚ) (c : ℕ)
    (hmem : (d, s, c) ∈ avg_merged df) (hdef : s ≠ ⊥) :
    (sentiment_map.lookup "Negative" = some 0 ∧
     sentiment_map.lookup "Neutral" = some 1 ∧
     sentiment_map.lookup "Positive" = some 2 ∧
     ∀ t : String, t ≠ "Negative" → t ≠ "Neutral" → t ≠ "Positive" →
       sentiment_map.lookup t = none) ∧
    ∃ q : ℚ, s = (q : WithBot ℚ) ∧ 0 ≤ q ∧ q ≤ 2 := by
  refine ⟨⟨rfl, rfl, rfl, fun t h1 h2 h3 => sentiment_map_lookup_eq_none h1 h2 h3⟩, ?_⟩
  obtain ⟨_, hs⟩ := mem_avg_merged hmem
  have hne : meanScores (scoresOf (df.filter (fun r => r.district == d))) ≠ ⊥ :=
    hs ▸ hdef
  obtain ⟨q, hq, h0, h2⟩ := meanScores_bounds _ (group_scores_le_two df d) hne
  exact ⟨q, hs.trans hq, h0, h2⟩

/-- Witness for C2 at a one-row Positive table: the Galle average is 2. -/
theorem C2_grouped_average_witness :
    (sentiment_map.lookup "Negative" = some 0 ∧
     sentiment_map.lookup "Neutral" = some 1 ∧
     sentiment_map.lookup "Positive" = some 2 ∧
     ∀ t : String, t ≠ "Negative" → t ≠ "Neutral" → t ≠ "Positive" →
       sentiment_map.lookup t = none) ∧
    ∃ q : ℚ, (((2 : ℚ) : WithBot ℚ)) = (q : WithBot ℚ) ∧ 0 ≤ q ∧ q ≤ 2 :=
  C2_grouped_average [goodRow] "Galle" ((2 : ℚ) : WithBot ℚ) 1
    (by simp +decide [avg_merged, avg_sentiment, review_counts, value_counts, meanScores,
      scoresOf, sentiment_map, goodRow, List.dedup, List.pwFilter, List.lookup,
      List.insertionSort, List.orderedInsert, List.count, List.countP, List.countP.go,
      List.filterMap, List.filter])
    (by simp)

/-- C2 counterexample: a table whose single row has the out-of-dictionary
sentiment Mixed produces a grouped-average output whose only entry carries the
undefined bottom average, which is below 0, so not every average score in the
output lies in the interval [0, 2]. -/
theorem C2_counterexample :
    avg_merged [badRow] = [("Galle", (⊥ : WithBot ℚ), 1)] ∧
    ((⊥ : WithBot ℚ) < 0) := by
  refine ⟨by decide, ?_⟩
  exact_mod_cast WithBot.bot_lt_coe (0 : ℚ)

/-- C3 (amended): a district appears in the grouped-average output exactly
when it has at least one row in the table; the merge at app.py line 72 is an
inner join on the district key, but both joined tables list every district
occurring in the table (the average table lists a district with an undefined
bottom average when none of its rows has a valid sentiment), so no district is
dropped. -/
theorem C3_district_membership (df : List Row) (d : String) :
    d ∈ (avg_merged df).map Prod.fst ↔ d ∈ df.map Row.district := by
  constructor
  · intro hd
    obtain ⟨⟨d2, s2, c2⟩, hx, hxe⟩ := List.mem_map.mp hd
    obtain ⟨hdd, _⟩ := mem_avg_merged hx
    exact (show d2 = d from hxe) ▸ List.mem_dedup.mp hdd
  · intro hd
    have hdd : d ∈ (df.map Row.district).dedup := List.mem_dedup.mpr hd
    have h1 : (d, meanScores (scoresOf (df.filter (fun r => r.district == d))))
        ∈ avg_sentiment df := List.mem_map_of_mem _ hdd
    have h2 : ((review_counts df).lookup d).isSome := by
      rw [lookup_isSome_iff]
      exact ((value_counts_keys_perm (df.map Row.district)).mem_iff).mpr hdd
    obtain ⟨c, hc⟩ := Option.isSome_iff_exists.mp h2
    apply List.mem_map.mpr
    refine ⟨(d, meanScores (scoresOf (df.filter (fun r => r.district == d))), c), ?_, rfl⟩
    apply List.mem_filterMap.mpr
    exact ⟨(d, meanScores (scoresOf (df.filter (fun r => r.district == d)))), h1,
      by rw [hc]; rfl⟩

/-- Witness for C3 at a one-row table: Galle appears in the output. -/
theorem C3_district_membership_witness :
    "Galle" ∈ (avg_merged [goodRow]).map Prod.fst :=
  (C3_district_membership [goodRow] "Galle").mpr (by decide)

/-- C3 counterexample: with a single Galle row of sentiment Mixed, Galle
appears in the grouped-average output although the table has no
valid-sentiment row at all, so districts with no valid-score rows are not
dropped by the join. -/
theorem C3_counterexample :
    "Galle" ∈ (avg_merged [badRow]).map Prod.fst ∧
    [badRow].filter (fun r => (sentiment_map.lookup r.sentiment).isSome) = [] := by
  constructor <;> decide

end TourismApp
